import Mathlib

/-!
Shallow embedding of `src/app.py` (pulse-dash-app): batch ingestion of sensor
readings into a document store, and the pandas-based reshape pipeline that
turns the stored documents into per-metric time series for the dashboard.

Conventions of the embedding:
* JSON scalars are modelled exactly (`ℚ` for numbers, `String` for strings);
  documents are association lists of fields.
* The Cosmos container is modelled as a list of items with upsert-by-key
  semantics; fallible external reads are an `Except String` input.
* A pandas `DataFrame` is modelled column-oriented: a list of named columns,
  each a list of cells; a missing entry is the `nan` cell.  `datetime64[ns]`
  cells carry their epoch-nanosecond value.
* Python exceptions are `Except.error`; `try/except` blocks that fall back to
  an empty DataFrame are modelled by matching on the `Except`.
-/

namespace PulseDash

/-- JSON values as they occur inside stored sensor documents: numbers,
strings and nested objects.  An object is encoded as a right-nested chain of
key-value pairs (`objCons k v rest` with `objNil` at the end), i.e. an
association list fused into the inductive so that recursion over nested
objects is plain structural recursion. -/
inductive JVal where
  | num (q : ℚ)
  | str (s : String)
  | objNil
  | objCons (k : String) (v : JVal) (rest : JVal)
deriving DecidableEq, Repr

/-- A JSON object from a field list, e.g. `jobj [("temperature", .num 20)]`. -/
def jobj : List (String × JVal) → JVal
  | [] => .objNil
  | (k, v) :: rest => .objCons k v (jobj rest)

/-- One document / batch item: a JSON object, i.e. a list of named fields. -/
structure Item where
  fields : List (String × JVal)
deriving DecidableEq, Repr

/-- Membership test `key in item` on a JSON object (Python dict). -/
def Item.hasKey (it : Item) (k : String) : Bool :=
  it.fields.any (fun p => p.1 == k)

/-- Lookup of a field's value in an item, `none` when absent. -/
def Item.get? (it : Item) (k : String) : Option JVal :=
  (it.fields.find? (fun p => p.1 == k)).map Prod.snd

/-! ## Ingestion: `add_item_batch` (src/app.py lines 61-80) -/

/-- Parsed request body: either a JSON array of objects, or something that is
not a list (a bare object, string, number, ...), which
`isinstance(batch, list)` rejects.  Claims about ingestion only involve
batches whose elements are objects, so list elements are `Item`s. -/
inductive BatchInput where
  | list (items : List Item)
  | nonList
deriving DecidableEq, Repr

/-- Cosmos upserts by the (id, partitionKey) pair: `container.upsert_item`
replaces an existing document with the same key, otherwise appends. -/
def upsertKey (it : Item) : Option JVal × Option JVal :=
  (it.get? "id", it.get? "partitionKey")

/-- The stored collection after one `upsert_item` call. -/
def upsert (store : List Item) (it : Item) : List Item :=
  if store.any (fun s => upsertKey s == upsertKey it) then
    store.map (fun s => if upsertKey s == upsertKey it then it else s)
  else
    store ++ [it]

/-- The fields required of every batch item (src/app.py line 72). -/
def requiredKeys : List String := ["id", "partitionKey", "name"]

/-- Per-item validation: `all(key in item for key in ["id", "partitionKey", "name"])`. -/
def validItem (it : Item) : Bool :=
  requiredKeys.all (fun k => it.hasKey k)

/-- Observable outcome of one `/add-item` call: the stored collection after
the call, the HTTP status, and the item count reported by the success
message (`none` when the call failed). -/
structure IngestOutcome where
  store : List Item
  status : Nat
  reportedCount : Option Nat
deriving DecidableEq, Repr

/-- The `for item in batch` loop of `add_item_batch`: each item is validated
and, immediately if valid, upserted; the first invalid item aborts the whole
call with status 400, keeping the upserts already performed. -/
def processBatch (origLen : Nat) : List Item → List Item → IngestOutcome
  | store, [] => ⟨store, 200, some origLen⟩
  | store, it :: rest =>
    if validItem it then processBatch origLen (upsert store it) rest
    else ⟨store, 400, none⟩

/-- The `/add-item` handler `add_item_batch`, as a function from the current
store and the parsed request body to the observable outcome. -/
def add_item_batch (store : List Item) (input : BatchInput) : IngestOutcome :=
  match input with
  | .nonList => ⟨store, 400, none⟩
  | .list items => processBatch items.length store items

/-! ## DataFrame model for the pandas reshape pipeline (src/app.py lines 93-180) -/

/-- One cell of a DataFrame: a number, a string, a `datetime64[ns]` value
(carried as its epoch-nanosecond count), an unflattened JSON object, or the
missing-value sentinel `NaN`/`NaT`. -/
inductive Cell where
  | num (q : ℚ)
  | str (s : String)
  | dt (ns : ℚ)
  | obj (v : JVal)
  | nan
deriving DecidableEq, Repr

/-- Column-oriented DataFrame: named columns in order, each a list of cells
(one per row; every constructor below keeps all columns the same length). -/
structure Frame where
  cols : List (String × List Cell)
deriving DecidableEq, Repr

/-- The empty DataFrame `pd.DataFrame()`. -/
def emptyFrame : Frame := ⟨[]⟩

/-- Number of rows (length of the first column; 0 when there are no columns). -/
def Frame.nRows (f : Frame) : Nat :=
  (f.cols.head?.map (fun p => p.2.length)).getD 0

/-- Pandas `df.empty`: true when either axis has length zero. -/
def Frame.isEmpty (f : Frame) : Bool :=
  f.cols.isEmpty || f.nRows == 0

/-- Drop every key already seen, keeping the first occurrence of each key in
order (`seen` holds the keys already emitted). -/
def dedupKeys (seen : List String) : List String → List String
  | [] => []
  | k :: rest =>
    if seen.contains k then dedupKeys seen rest
    else k :: dedupKeys (k :: seen) rest

/-- Union of the keys of several records, in order of first appearance —
the column set `pd.DataFrame(list_of_dicts)` produces. -/
def unionKeys {α : Type} (rows : List (List (String × α))) : List String :=
  dedupKeys [] ((rows.map (fun r => r.map Prod.fst)).flatten)

/-- A JSON value placed into a cell (nested objects stay as objects). -/
def cellOfJVal : JVal → Cell
  | .num q => .num q
  | .str s => .str s
  | v => .obj v

/-- Pandas `pd.DataFrame(items)` on a list of dicts: one column per key in
first-appearance order, `NaN` for rows missing the key. -/
def mkFrame (items : List Item) : Frame :=
  ⟨(unionKeys (items.map Item.fields)).map
    (fun k => (k, items.map (fun it => ((it.get? k).map cellOfJVal).getD .nan)))⟩

/-- Column selection `df[c]`: `KeyError` when the column is absent. -/
def Frame.getCol (f : Frame) (c : String) : Except String (List Cell) :=
  match f.cols.find? (fun p => p.1 == c) with
  | some p => .ok p.2
  | none => .error ("KeyError: " ++ c)

/-- Column membership `c in df.columns`. -/
def Frame.hasCol (f : Frame) (c : String) : Bool :=
  f.cols.any (fun p => p.1 == c)

/-- Column assignment `df[c] = vals` (the column is present in our uses). -/
def Frame.setCol (f : Frame) (c : String) (vals : List Cell) : Frame :=
  ⟨f.cols.map (fun p => if p.1 == c then (c, vals) else p)⟩

/-- Pandas `df.drop(columns=cs, errors='ignore')`. -/
def Frame.dropCols (f : Frame) (cs : List String) : Frame :=
  ⟨f.cols.filter (fun p => !cs.contains p.1)⟩

/-- Pandas `pd.concat([f, g], axis=1)` on frames with identical range
indices: the columns of `g` are appended to those of `f`. -/
def Frame.concatCols (f g : Frame) : Frame :=
  ⟨f.cols ++ g.cols⟩

/-- Nanoseconds per tick of a `pd.to_datetime` unit. -/
def nsPerUnit (unit : String) : ℚ :=
  if unit == "s" then 1000000000
  else if unit == "ms" then 1000000
  else if unit == "us" then 1000
  else 1

/-- Pandas `pd.to_datetime(col, unit=u)`: a numeric value `q` becomes the
datetime at epoch-nanosecond `q * nsPerUnit u`; `NaN` becomes `NaT`;
anything else raises. -/
def toDatetime (unit : String) : List Cell → Except String (List Cell)
  | [] => .ok []
  | .num q :: rest => (toDatetime unit rest).map (fun l => .dt (q * nsPerUnit unit) :: l)
  | .nan :: rest => (toDatetime unit rest).map (fun l => .nan :: l)
  | _ :: _ => .error "to_datetime: unconvertible value"

/-- Recursive dot-flattening of a JSON value, as `pd.json_normalize`
performs on each record: a scalar is kept as a cell (`Sum.inl`), an object
becomes its flattened field list (`Sum.inr`).  A field whose value is a
scalar contributes `(key, cell)`; a field whose value is an object
contributes the value's own flattened fields with `key ++ "."` spliced in
front of every inner key. -/
def flattenVal : JVal → Sum Cell (List (String × Cell))
  | .num q => .inl (.num q)
  | .str s => .inl (.str s)
  | .objNil => .inr []
  | .objCons k v rest =>
    let contribution :=
      match flattenVal v with
      | .inl c => [(k, c)]
      | .inr l => l.map (fun p => (k ++ "." ++ p.1, p.2))
    let restFlat :=
      match flattenVal rest with
      | .inl _ => []
      | .inr l => l
    .inr (contribution ++ restFlat)

/-- Dot-flattening of one JSON object into a flat field list (the object
branch of `flattenVal`; the scalar branch cannot occur on an object). -/
def flattenObj (v : JVal) : List (String × Cell) :=
  match flattenVal v with
  | .inl _ => []
  | .inr l => l

/-- Flattening of every element of a column: each element must be a dict
(`pd.json_normalize` raises on `NaN` or scalar elements). -/
def flattenCells : List Cell → Except String (List (List (String × Cell)))
  | [] => .ok []
  | .obj v :: rest => (flattenCells rest).map (fun l => flattenObj v :: l)
  | _ :: _ => .error "json_normalize: element is not a dict"

/-- Lookup in a flattened record, `NaN` when the key is absent. -/
def lookupFlat (r : List (String × Cell)) (k : String) : Cell :=
  ((r.find? (fun p => p.1 == k)).map Prod.snd).getD .nan

/-- The frame built from already-flattened records: the union of the
flattened keys (in appearance order) as columns, missing entries `NaN`. -/
def frameOfFlat (flat : List (List (String × Cell))) : Frame :=
  ⟨(unionKeys flat).map (fun k => (k, flat.map (fun r => lookupFlat r k)))⟩

/-- Pandas `pd.json_normalize(column)`: flatten each record, then assemble
the frame from the flattened records. -/
def jsonNormalize (cells : List Cell) : Except String Frame :=
  (flattenCells cells).map frameOfFlat

/-- Store-internal bookkeeping columns dropped at the end of the pipeline. -/
def metaCols : List String := ["_rid", "_self", "_etag", "_attachments", "_ts"]

/-- Body of `get_time_series_data` after a successful store read, before the
surrounding `try/except`: build the frame, return an empty frame for an
empty collection, convert `timestamp` with `unit='ms'`, flatten
`sensorGroups`, drop it, append the flattened columns, drop metadata
columns.  Any raised exception is the `error` case. -/
def getTSDCore (items : List Item) : Except String Frame :=
  if (mkFrame items).isEmpty then .ok emptyFrame
  else
    ((mkFrame items).getCol "timestamp").bind fun rawTs =>
    (toDatetime "ms" rawTs).bind fun tsCells =>
    (((mkFrame items).setCol "timestamp" tsCells).getCol "sensorGroups").bind fun sgCol =>
    (jsonNormalize sgCol).bind fun sensorsDf =>
    .ok (((((mkFrame items).setCol "timestamp" tsCells).dropCols
            ["sensorGroups"]).concatCols sensorsDf).dropCols metaCols)

/-- The `try/except` of `get_time_series_data`: a raised exception degrades
to an empty DataFrame. -/
def frameOrEmpty : Except String Frame → Frame
  | .ok f => f
  | .error _ => emptyFrame

/-- `get_time_series_data` proper: read all items (the read itself may have
failed) and run the pipeline, any failure degrading to the empty frame. -/
def get_time_series_data (readAll : Except String (List Item)) : Frame :=
  match readAll with
  | .error _ => emptyFrame
  | .ok items => frameOrEmpty (getTSDCore items)

/-- A Dash figure: the `{}` placeholder or a `px.line` chart with an x axis,
one or more y series, and a title. -/
inductive Figure where
  | empty
  | line (x : List Cell) (y : List (List Cell)) (title : String)
deriving DecidableEq, Repr

/-- Figure-building part of the `update_graphs` callback, given the frame
returned by `get_time_series_data`: empty figures when the frame is empty;
otherwise project the timestamp column and the five hard-coded metric
columns (a missing column raises `KeyError` out of the callback). -/
def update_graphs0 (df : Frame) : Except String (Figure × Figure × Figure) :=
  if df.isEmpty then .ok (.empty, .empty, .empty)
  else
    (df.getCol "timestamp").bind fun timestamps =>
    (df.getCol "test_unit.temperature").bind fun tempTU =>
    (df.getCol "space_nursery.temperature").bind fun tempSN =>
    (df.getCol "test_unit.humidity").bind fun humTU =>
    (df.getCol "space_nursery.humidity").bind fun humSN =>
    (df.getCol "space_nursery.lux").bind fun lux =>
    .ok (.line timestamps [tempTU, tempSN] "Temperature Over Time",
         .line timestamps [humTU, humSN] "Humidity Over Time",
         .line timestamps [lux] "Lux Over Time")

/-- The whole `update_graphs` callback: fetch and reshape the data, then
build the figures. -/
def update_graphs (readAll : Except String (List Item)) :
    Except String (Figure × Figure × Figure) :=
  update_graphs0 (get_time_series_data readAll)

/-- One `dcc.Interval` tick runs `update_graphs` on that tick's store read;
ticks are independent (the callback keeps no state between invocations). -/
def scheduleRun (reads : List (Except String (List Item))) :
    List (Except String (Figure × Figure × Figure)) :=
  reads.map update_graphs

/-- Whether an `Except` computation succeeded. -/
def exceptIsOk {α : Type} : Except String α → Bool
  | .ok _ => true
  | .error _ => false

/-- Alignment invariant for a frame: every column has exactly `n` cells. -/
def Frame.uniform (f : Frame) (n : Nat) : Prop :=
  ∀ p ∈ f.cols, p.2.length = n

instance {ε α : Type} [DecidableEq ε] [DecidableEq α] : DecidableEq (Except ε α)
  | .ok a, .ok b =>
    if h : a = b then .isTrue (by rw [h]) else .isFalse (fun hc => h (Except.ok.inj hc))
  | .error a, .error b =>
    if h : a = b then .isTrue (by rw [h]) else .isFalse (fun hc => h (Except.error.inj hc))
  | .ok _, .error _ => .isFalse (fun hc => Except.noConfusion hc)
  | .error _, .ok _ => .isFalse (fun hc => Except.noConfusion hc)

/-! ## Concrete documents and batches used in the claim analyses -/

/-- A stored sensor document with the given raw timestamp and temperature in
both sensor groups (humidity and lux 0), shaped like the documents the
dashboard expects. -/
def mkDoc (ts temp : ℚ) : Item :=
  ⟨[("timestamp", .num ts),
    ("sensorGroups", jobj
      [("test_unit", jobj [("temperature", .num temp), ("humidity", .num 0)]),
       ("space_nursery", jobj [("temperature", .num temp), ("humidity", .num 0), ("lux", .num 0)])])]⟩

/-- A document whose sensor groups never mention `lux`. -/
def noLuxDoc : Item :=
  ⟨[("timestamp", .num 5),
    ("sensorGroups", jobj
      [("test_unit", jobj [("temperature", .num 20), ("humidity", .num 1)]),
       ("space_nursery", jobj [("temperature", .num 21), ("humidity", .num 2)])])]⟩

/-- A document with a top-level metric field and no `sensorGroups` field. -/
def bareDoc : Item :=
  ⟨[("id", .str "1"), ("partitionKey", .str "p"), ("name", .str "a"),
    ("timestamp", .num 5), ("temperature", .num 20)]⟩

/-- A document with a top-level metric field and an empty `sensorGroups`
map. -/
def emptyGroupsDoc (v : ℚ) : Item :=
  ⟨[("timestamp", .num 5), ("temperature", .num v), ("sensorGroups", .objNil)]⟩

/-- A valid batch item. -/
def goodItem1 : Item :=
  ⟨[("id", .str "1"), ("partitionKey", .str "p"), ("name", .str "a")]⟩

/-- Another valid batch item. -/
def goodItem2 : Item :=
  ⟨[("id", .str "2"), ("partitionKey", .str "p"), ("name", .str "b")]⟩

/-- A batch item missing the required `id` field. -/
def badItem : Item :=
  ⟨[("partitionKey", .str "p"), ("name", .str "c")]⟩

/-- The spec scenario's item: partition key and name, a timestamp, no id. -/
def noIdItem : Item :=
  ⟨[("partitionKey", .str "p"), ("name", .str "a"), ("timestamp", .num 1700000000)]⟩

/-- The x axis produced for the stored order `[mkDoc 10 20, mkDoc 5 19]`:
the epoch-nanosecond datetimes of 10 ms and 5 ms, in storage order. -/
def wX : List Cell := [.dt (10 * 1000000), .dt (5 * 1000000)]

/-- The temperature y series for the stored order `[mkDoc 10 20, mkDoc 5 19]`. -/
def wYtemp : List (List Cell) := [[.num 20, .num 19], [.num 20, .num 19]]

/-- The humidity y series for the same stored order. -/
def wYhum : List (List Cell) := [[.num 0, .num 0], [.num 0, .num 0]]

/-- The lux y series for the same stored order. -/
def wYlux : List (List Cell) := [[.num 0, .num 0]]

/-! ## Helper lemmas -/

/-- Bind on a successful `Except` computation. -/
theorem ok_bind {α β : Type} (a : α) (f : α → Except String β) :
    (Except.ok a).bind f = f a := rfl

/-- Bind on a failed `Except` computation. -/
theorem err_bind {α β : Type} (e : String) (f : α → Except String β) :
    (Except.error e).bind f = .error e := rfl

/-- A successful bind factors through a successful first stage. -/
theorem bind_eq_ok {α β : Type} {e : Except String α} {f : α → Except String β} {b : β}
    (h : e.bind f = .ok b) : ∃ a, e = .ok a ∧ f a = .ok b := by
  cases e with
  | error msg => rw [err_bind] at h; exact Except.noConfusion h
  | ok a => exact ⟨a, rfl, h⟩

/-- The `for` loop of `add_item_batch`: the first invalid item aborts the
call with status 400, after the items before it have already been upserted
and with the items after it never examined. -/
theorem processBatch_abort (origLen : Nat) (pre post : List Item) (bad : Item) :
    ∀ store : List Item, (∀ it ∈ pre, validItem it = true) → validItem bad = false →
      processBatch origLen store (pre ++ bad :: post) =
        ⟨pre.foldl upsert store, 400, none⟩ := by
  induction pre with
  | nil =>
    intro store _ hbad
    simp only [List.nil_append, processBatch, hbad, List.foldl_nil]
    simp
  | cons a rest ih =>
    intro store hpre hbad
    have ha : validItem a = true := hpre a (by simp)
    simp only [List.cons_append, processBatch, ha, if_true, List.foldl_cons]
    exact ih (upsert store a) (fun it hit => hpre it (by simp [hit])) hbad

/-! ## Claim C7 -/

/-- C7: an ingestion input that is not a list is rejected wholesale with
HTTP 400 and the store is unchanged (zero writes attempted). -/
theorem c7_non_list_rejected_no_writes (store : List Item) :
    add_item_batch store .nonList = ⟨store, 400, none⟩ := rfl

/-! ## Claim C10 -/

/-- C10: an empty batch (empty list) is accepted: status 200, a reported
count of 0 items, no upserts, and the store unchanged. -/
theorem c10_empty_batch_accepted (store : List Item) :
    add_item_batch store (.list []) = ⟨store, 200, some 0⟩ := rfl

/-! ## Claim C2 (corrected) -/

/-- C2 counterexample: for the spec scenario item (partition key, name,
timestamp `1700000000`, no id) the call returns 400 and stores nothing —
the item is rejected, no identifier is derived from the timestamp,
contradicting the claim that it is accepted with id `"1700000000"`. -/
theorem c2_counterexample :
    (add_item_batch [] (.list [noIdItem])).status = 400 ∧
    (add_item_batch [] (.list [noIdItem])).store = [] := by
  exact ⟨rfl, rfl⟩

/-- C2 amended: a batch item with no `id` field is rejected — the call
aborts with status 400, nothing is upserted, and no identifier is derived
from its timestamp (the handler has no derivation logic at all). -/
theorem c2_missing_id_rejected (store : List Item) (it : Item)
    (hid : it.hasKey "id" = false) :
    add_item_batch store (.list [it]) = ⟨store, 400, none⟩ := by
  have hv : validItem it = false := by
    simp [validItem, requiredKeys, hid]
  simp [add_item_batch, processBatch, hv]

/-- Witness for `c2_missing_id_rejected` at the spec scenario's item. -/
theorem c2_missing_id_rejected_witness :
    Item.hasKey noIdItem "id" = false ∧
    add_item_batch [] (.list [noIdItem]) = ⟨[], 400, none⟩ :=
  ⟨by decide, c2_missing_id_rejected [] noIdItem (by decide)⟩

/-! ## Claim C3 (corrected) -/

/-- C3 counterexample: in the batch `[goodItem1, badItem, goodItem2]` the
invalid middle item aborts the call, but `goodItem1` has already been
written to the store — a write happened before the whole batch was
validated — and the valid sibling `goodItem2` is not ingested. -/
theorem c3_counterexample :
    add_item_batch [] (.list [goodItem1, badItem, goodItem2]) =
      ⟨[goodItem1], 400, none⟩ ∧
    validItem goodItem2 = true ∧
    (List.contains ([goodItem1] : List Item) goodItem2) = false := by
  refine ⟨?_, rfl, rfl⟩
  rfl

/-- C3 amended: validation and writing are interleaved item by item — each
valid item is upserted immediately, and the first item missing a required
field aborts the call with status 400; the items before it have already
been upserted (so writes do occur before the batch is fully validated) and
the items after it are neither validated nor ingested. -/
theorem c3_interleaved_validation_aborts (store : List Item)
    (pre post : List Item) (bad : Item)
    (hpre : ∀ it ∈ pre, validItem it = true) (hbad : validItem bad = false) :
    add_item_batch store (.list (pre ++ bad :: post)) =
      ⟨pre.foldl upsert store, 400, none⟩ :=
  processBatch_abort _ _ _ _ _ hpre hbad

/-- Witness for `c3_interleaved_validation_aborts` on a concrete batch. -/
theorem c3_interleaved_validation_aborts_witness :
    validItem goodItem1 = true ∧ validItem badItem = false ∧
    add_item_batch [] (.list ([goodItem1] ++ badItem :: [goodItem2])) =
      ⟨[goodItem1].foldl upsert [], 400, none⟩ :=
  ⟨by decide, by decide,
    c3_interleaved_validation_aborts [] [goodItem1] [goodItem2] badItem
      (by decide) (by decide)⟩

/-! ## Claim C1 (corrected) -/

/-- C1 counterexample: two documents with timestamps 10 and 5 (temperatures
20.0 and 19.0) stored in the order `[10, 5]` produce the temperature series
with x axis `[10ms, 5ms]` — the reverse of the `[(5,19.0), (10,20.0)]` the
claim promises regardless of storage order, and not non-decreasing. -/
theorem c1_counterexample :
    update_graphs (.ok [mkDoc 10 20, mkDoc 5 19]) =
      .ok (.line wX wYtemp "Temperature Over Time",
           .line wX wYhum "Humidity Over Time",
           .line wX wYlux "Lux Over Time") ∧
    wX ≠ [Cell.dt (5 * 1000000), Cell.dt (10 * 1000000)] := by
  refine ⟨rfl, ?_⟩
  intro h
  simp only [wX] at h
  injection h with h1 _
  injection h1 with h1
  norm_num at h1

set_option maxRecDepth 4000 in
/-- C1 amended: the reshape pass performs no sort — the records are
projected in storage order, so the series' timestamp sequence equals the
storage order of the documents (it is ascending only when the stored order
already is).  For any two stored documents, the produced series list the
two timestamps and values exactly in storage order. -/
theorem c1_reshape_preserves_storage_order (a b u v : ℚ) :
    update_graphs (.ok [mkDoc a u, mkDoc b v]) =
      .ok (.line [.dt (a * 1000000), .dt (b * 1000000)]
             [[.num u, .num v], [.num u, .num v]] "Temperature Over Time",
           .line [.dt (a * 1000000), .dt (b * 1000000)]
             [[.num 0, .num 0], [.num 0, .num 0]] "Humidity Over Time",
           .line [.dt (a * 1000000), .dt (b * 1000000)]
             [[.num 0, .num 0]] "Lux Over Time") := rfl

/-! ## Claim C8 -/

/-- C8: a failed store read (the pipeline's `try/except` catches it) and an
empty document collection both yield the empty bundle `({}, {}, {})` rather
than an error, and the schedule continues — the outcome of a tick over a
failed read leaves every later tick's outcome unchanged. -/
theorem c8_failed_or_empty_pass_empty_bundle (e : String)
    (reads : List (Except String (List Item))) :
    update_graphs (.error e) = .ok (.empty, .empty, .empty) ∧
    update_graphs (.ok []) = .ok (.empty, .empty, .empty) ∧
    scheduleRun (.error e :: reads) =
      .ok (.empty, .empty, .empty) :: scheduleRun reads :=
  ⟨rfl, rfl, rfl⟩

/-! ## Claim C9 -/

/-- C9: the pipeline converts every stored document's raw `timestamp` value
with the hardcoded unit `'ms'` (there is no unit parameter anywhere): a raw
integer timestamp `t` becomes the datetime at epoch-nanosecond
`t * nsPerUnit "ms"`, and `nsPerUnit "ms" = 10^6`, i.e. the raw value is
interpreted as an integer count of milliseconds since the Unix epoch. -/
theorem c9_timestamp_unit_milliseconds (t : ℤ) :
    (get_time_series_data (.ok [mkDoc (t : ℚ) 0])).getCol "timestamp" =
      .ok [.dt ((t : ℚ) * nsPerUnit "ms")] ∧
    nsPerUnit "ms" = 1000000 :=
  ⟨rfl, rfl⟩

/-! ## Claim C6 (corrected) -/

/-- C6 counterexample: a document collection whose single document has a
top-level `temperature` field and no `sensorGroups` field makes the whole
pass fail (`KeyError: sensorGroups`, caught into an empty frame): the
result is the empty frame and carries no `temperature` column — the
top-level metric field does not survive, contradicting identity. -/
theorem c6_counterexample :
    get_time_series_data (.ok [bareDoc]) = emptyFrame ∧
    Frame.hasCol (get_time_series_data (.ok [bareDoc])) "temperature" = false :=
  ⟨rfl, rfl⟩

/-- C6 amended: only a document whose nested map is present but empty keeps
its top-level metric fields unchanged under bare keys (here `temperature`
holds the untouched value `v`); when the nested map is absent the pass
fails and degrades to the empty frame, losing the top-level fields. -/
theorem c6_normalize_top_level_only_for_empty_groups (v : ℚ) :
    (get_time_series_data (.ok [emptyGroupsDoc v])).getCol "temperature" =
      .ok [.num v] ∧
    get_time_series_data (.ok [bareDoc]) = emptyFrame :=
  ⟨rfl, rfl⟩

/-! ## Claim C5 (corrected) -/

/-- Selecting an absent column raises `KeyError`. -/
theorem getCol_of_not_hasCol {f : Frame} {c : String} (h : f.hasCol c = false) :
    f.getCol c = .error ("KeyError: " ++ c) := by
  unfold Frame.getCol
  have hf : f.cols.find? (fun p => p.1 == c) = none := by
    apply List.find?_eq_none.mpr
    intro p hp hb
    have hc : f.hasCol c = true := List.any_eq_true.mpr ⟨p, hp, hb⟩
    rw [hc] at h
    cases h
  rw [hf]

/-- C5 counterexample: with one stored document that carries every metric
except `space_nursery.lux`, the callback raises `KeyError` (an error
result) instead of producing a zero-point series for the absent key. -/
theorem c5_counterexample :
    update_graphs (.ok [noLuxDoc]) = .error ("KeyError: " ++ "space_nursery.lux") ∧
    exceptIsOk (update_graphs (.ok [noLuxDoc])) = false :=
  ⟨rfl, rfl⟩

/-- C5 amended: when the stored documents produce a non-empty frame that
has no `space_nursery.lux` column (the requested key is absent from every
document), the callback does not yield a zero-point series — the whole pass
fails with an error (`KeyError` escaping `update_graphs`). -/
theorem c5_missing_metric_key_fails (readAll : Except String (List Item))
    (h1 : (get_time_series_data readAll).isEmpty = false)
    (h2 : (get_time_series_data readAll).hasCol "space_nursery.lux" = false) :
    exceptIsOk (update_graphs readAll) = false := by
  unfold update_graphs update_graphs0
  rw [h1]
  rw [if_neg (by simp : ¬ (false = true))]
  cases hts : (get_time_series_data readAll).getCol "timestamp" with
  | error e => rw [err_bind]; rfl
  | ok ts =>
  rw [ok_bind]
  cases hc1 : (get_time_series_data readAll).getCol "test_unit.temperature" with
  | error e => rw [err_bind]; rfl
  | ok c1 =>
  rw [ok_bind]
  cases hc2 : (get_time_series_data readAll).getCol "space_nursery.temperature" with
  | error e => rw [err_bind]; rfl
  | ok c2 =>
  rw [ok_bind]
  cases hc3 : (get_time_series_data readAll).getCol "test_unit.humidity" with
  | error e => rw [err_bind]; rfl
  | ok c3 =>
  rw [ok_bind]
  cases hc4 : (get_time_series_data readAll).getCol "space_nursery.humidity" with
  | error e => rw [err_bind]; rfl
  | ok c4 =>
  rw [ok_bind]
  rw [getCol_of_not_hasCol h2, err_bind]
  rfl

/-- Witness for `c5_missing_metric_key_fails` at a concrete collection. -/
theorem c5_missing_metric_key_fails_witness :
    (get_time_series_data (.ok [noLuxDoc])).isEmpty = false ∧
    (get_time_series_data (.ok [noLuxDoc])).hasCol "space_nursery.lux" = false ∧
    exceptIsOk (update_graphs (.ok [noLuxDoc])) = false :=
  ⟨by decide, by decide,
    c5_missing_metric_key_fails (.ok [noLuxDoc]) (by decide) (by decide)⟩

/-! ## Claim C4 -/

/-- Every column `pd.DataFrame(items)` builds has one cell per item. -/
theorem mkFrame_uniform (items : List Item) :
    (mkFrame items).uniform items.length := by
  intro p hp
  simp only [mkFrame] at hp
  obtain ⟨k, _, rfl⟩ := List.mem_map.1 hp
  simp

/-- `pd.to_datetime` preserves the column length. -/
theorem toDatetime_length (u : String) :
    ∀ cells out : List Cell, toDatetime u cells = .ok out →
      out.length = cells.length := by
  intro cells
  induction cells with
  | nil =>
    intro out h
    simp only [toDatetime] at h
    cases h
    rfl
  | cons c rest ih =>
    intro out h
    cases c with
    | num q =>
      simp only [toDatetime] at h
      cases hr : toDatetime u rest with
      | error e => rw [hr] at h; cases h
      | ok l =>
        rw [hr] at h
        cases h
        simp [ih l hr]
    | nan =>
      simp only [toDatetime] at h
      cases hr : toDatetime u rest with
      | error e => rw [hr] at h; cases h
      | ok l =>
        rw [hr] at h
        cases h
        simp [ih l hr]
    | str s => simp only [toDatetime] at h; cases h
    | dt ns => simp only [toDatetime] at h; cases h
    | obj v => simp only [toDatetime] at h; cases h

/-- `json_normalize`'s record flattening yields one record per cell. -/
theorem flattenCells_length :
    ∀ cells : List Cell, ∀ flat, flattenCells cells = .ok flat →
      flat.length = cells.length := by
  intro cells
  induction cells with
  | nil =>
    intro flat h
    simp only [flattenCells] at h
    cases h
    rfl
  | cons c rest ih =>
    intro flat h
    cases c with
    | obj v =>
      simp only [flattenCells] at h
      cases hr : flattenCells rest with
      | error e => rw [hr] at h; cases h
      | ok l =>
        rw [hr] at h
        cases h
        simp [ih l hr]
    | num q => simp only [flattenCells] at h; cases h
    | str s => simp only [flattenCells] at h; cases h
    | dt ns => simp only [flattenCells] at h; cases h
    | nan => simp only [flattenCells] at h; cases h

/-- The frame assembled from flattened records has one cell per record in
every column. -/
theorem frameOfFlat_uniform (flat : List (List (String × Cell))) :
    (frameOfFlat flat).uniform flat.length := by
  intro p hp
  simp only [frameOfFlat] at hp
  obtain ⟨k, _, rfl⟩ := List.mem_map.1 hp
  simp

/-- Column assignment with a list of the right length keeps the frame
uniform. -/
theorem setCol_uniform {f : Frame} {n : Nat} (hf : f.uniform n)
    (c : String) {vals : List Cell} (hv : vals.length = n) :
    (f.setCol c vals).uniform n := by
  intro p hp
  simp only [Frame.setCol] at hp
  obtain ⟨q, hq, rfl⟩ := List.mem_map.1 hp
  by_cases h : (q.1 == c) = true
  · simp [h, hv]
  · simp only [Bool.not_eq_true] at h
    simp [h]
    exact hf q hq

/-- Dropping columns keeps the frame uniform. -/
theorem dropCols_uniform {f : Frame} {n : Nat} (hf : f.uniform n)
    (cs : List String) : (f.dropCols cs).uniform n := by
  intro p hp
  exact hf p (List.mem_of_mem_filter hp)

/-- Concatenating two uniform frames keeps the result uniform. -/
theorem concatCols_uniform {f g : Frame} {n : Nat} (hf : f.uniform n)
    (hg : g.uniform n) : (f.concatCols g).uniform n := by
  intro p hp
  rcases List.mem_append.1 hp with h | h
  · exact hf p h
  · exact hg p h

/-- A successfully selected column of a uniform frame has `n` cells. -/
theorem getCol_length {f : Frame} {n : Nat} (hf : f.uniform n) {c : String}
    {cells : List Cell} (h : f.getCol c = .ok cells) : cells.length = n := by
  unfold Frame.getCol at h
  cases hfind : f.cols.find? (fun p => p.1 == c) with
  | none => rw [hfind] at h; cases h
  | some p =>
    rw [hfind] at h
    cases h
    exact hf p (List.mem_of_find?_eq_some hfind)

/-- A successful reshape pass yields a frame with one cell per stored item
in every column. -/
theorem getTSDCore_uniform {items : List Item} {f : Frame}
    (h : getTSDCore items = .ok f) : f.uniform items.length := by
  unfold getTSDCore at h
  by_cases hie : (mkFrame items).isEmpty = true
  · rw [if_pos hie] at h
    cases h
    intro p hp
    exact absurd hp (List.not_mem_nil p)
  · rw [if_neg hie] at h
    obtain ⟨ts, hts, h⟩ := bind_eq_ok h
    obtain ⟨tsc, htsc, h⟩ := bind_eq_ok h
    obtain ⟨sg, hsg, h⟩ := bind_eq_ok h
    obtain ⟨sdf, hsdf, h⟩ := bind_eq_ok h
    cases h
    have h1 := mkFrame_uniform items
    have hts_len : ts.length = items.length := getCol_length h1 hts
    have htsc_len : tsc.length = items.length := by
      rw [toDatetime_length _ _ _ htsc, hts_len]
    have h2 : ((mkFrame items).setCol "timestamp" tsc).uniform items.length :=
      setCol_uniform h1 _ htsc_len
    have hsg_len : sg.length = items.length := getCol_length h2 hsg
    have h3 : sdf.uniform items.length := by
      unfold jsonNormalize at hsdf
      cases hfc : flattenCells sg with
      | error e => rw [hfc] at hsdf; cases hsdf
      | ok flat =>
        rw [hfc] at hsdf
        cases hsdf
        have hl : flat.length = items.length := by
          rw [flattenCells_length _ _ hfc, hsg_len]
        rw [← hl]
        exact frameOfFlat_uniform flat
    exact dropCols_uniform (concatCols_uniform (dropCols_uniform h2 _) h3) _

/-- The frame handed to the figure builder is always uniform. -/
theorem gtsd_uniform (readAll : Except String (List Item)) :
    ∃ n, (get_time_series_data readAll).uniform n := by
  cases readAll with
  | error e => exact ⟨0, fun p hp => absurd hp (List.not_mem_nil p)⟩
  | ok items =>
    cases hg : getTSDCore items with
    | error e =>
      refine ⟨0, ?_⟩
      rw [show get_time_series_data (.ok items) = frameOrEmpty (getTSDCore items) from rfl,
          hg]
      exact fun p hp => absurd hp (List.not_mem_nil p)
    | ok f =>
      refine ⟨items.length, ?_⟩
      rw [show get_time_series_data (.ok items) = frameOrEmpty (getTSDCore items) from rfl,
          hg]
      exact getTSDCore_uniform hg

/-- C4: every bundle the callback produces is aligned — the three figures
share the identical x axis (timestamp sequence), and every y series in the
bundle has exactly as many points as that common x axis, so any two series
can be plotted against the same axis. -/
theorem c4_alignment_invariant (readAll : Except String (List Item))
    (g1 g2 g3 : Figure) (x1 x2 x3 : List Cell)
    (ys1 ys2 ys3 : List (List Cell)) (t1 t2 t3 : String)
    (h : update_graphs readAll = .ok (g1, g2, g3))
    (h1 : g1 = .line x1 ys1 t1) (h2 : g2 = .line x2 ys2 t2)
    (h3 : g3 = .line x3 ys3 t3) :
    x2 = x1 ∧ x3 = x1 ∧
    ((ys1 ++ ys2 ++ ys3).all fun y => y.length == x1.length) = true := by
  obtain ⟨n, hu⟩ := gtsd_uniform readAll
  unfold update_graphs update_graphs0 at h
  by_cases hie : (get_time_series_data readAll).isEmpty = true
  · rw [if_pos hie] at h
    injection h with h'
    injection h' with ha h'
    rw [← ha] at h1
    exact Figure.noConfusion h1
  · rw [if_neg hie] at h
    obtain ⟨tsx, hts, h⟩ := bind_eq_ok h
    obtain ⟨c1, hc1, h⟩ := bind_eq_ok h
    obtain ⟨c2, hc2, h⟩ := bind_eq_ok h
    obtain ⟨c3, hc3, h⟩ := bind_eq_ok h
    obtain ⟨c4, hc4, h⟩ := bind_eq_ok h
    obtain ⟨c5, hc5, h⟩ := bind_eq_ok h
    injection h with h'
    injection h' with ha h'
    injection h' with hb hc
    rw [← ha] at h1
    rw [← hb] at h2
    rw [← hc] at h3
    injection h1 with e1 e2 _
    injection h2 with f1 f2 _
    injection h3 with i1 i2 _
    subst e1 e2 f1 f2 i1 i2
    refine ⟨rfl, rfl, ?_⟩
    have l0 : tsx.length = n := getCol_length hu hts
    have l1 : c1.length = n := getCol_length hu hc1
    have l2 : c2.length = n := getCol_length hu hc2
    have l3 : c3.length = n := getCol_length hu hc3
    have l4 : c4.length = n := getCol_length hu hc4
    have l5 : c5.length = n := getCol_length hu hc5
    simp [l0, l1, l2, l3, l4, l5]

/-- Witness for `c4_alignment_invariant` at a concrete two-document
collection. -/
theorem c4_alignment_invariant_witness :
    wX = wX ∧ wX = wX ∧
    ((wYtemp ++ wYhum ++ wYlux).all fun y => y.length == wX.length) = true :=
  c4_alignment_invariant (.ok [mkDoc 10 20, mkDoc 5 19])
    (.line wX wYtemp "Temperature Over Time")
    (.line wX wYhum "Humidity Over Time")
    (.line wX wYlux "Lux Over Time")
    wX wX wX wYtemp wYhum wYlux
    "Temperature Over Time" "Humidity Over Time" "Lux Over Time"
    (by rfl) rfl rfl rfl

end PulseDash
